import Mathlib

/-
Verification of the Genieverse tolerant response parser, query router and
chart-column resolution against the repository source
(robust_json_parser.py, api_client.py, config.py, chart_utils.py).

The Python code is embedded shallowly over lists of characters.  Modelling
conventions, stated once here:
* Python strings are Lean `String`s; all scanning is structural over `.data`.
* `str.strip()`, the regex class `\s`, and `json.loads` whitespace are
  modelled over the ASCII whitespace characters (space, tab, newline,
  carriage return, vertical tab, form feed); the regex classes `\w` and `\d`
  are modelled over their ASCII ranges.  The analysed payloads are ASCII.
* `json.loads` is modelled by `jsonParse` below: RFC 8259 grammar with
  Python strictness (control characters rejected inside strings, no leading
  zeros, last duplicate object key wins while the first occurrence keeps its
  position, exactly one top-level value).  Python additionally accepts the
  non-standard literals NaN and Infinity, which denote floats and are not
  representable here; none of the analysed behaviour involves them.
* JSON numbers are kept exactly as mantissa times a power of ten, so Python
  float rounding is not modelled; the code under analysis never computes
  with the numeric values, it only tests their type.
* A Python `bool` is an `int`, so boolean values satisfy the
  `isinstance(v, (int, float))` tests: `isNumericPy` accepts them.
* Exceptions that the source catches (its blanket `except` clauses) are
  modelled by `Option`: `none` stands for "an exception was raised and the
  enclosing handler took over".
-/

set_option maxRecDepth 100000

namespace Genieverse

/-! ### Character classes and Python string primitives -/

/-- ASCII whitespace, the model of `str.strip()` and of the regex class `\s`. -/
def isPyWs (c : Char) : Bool :=
  [' ', '\t', '\n', '\r', '\x0b', '\x0c'].contains c

/-- ASCII decimal digit, the model of the regex class `\d`. -/
def isDigitC (c : Char) : Bool :=
  48 ≤ c.toNat && c.toNat ≤ 57

/-- ASCII word character, the model of the regex class `\w`. -/
def isWordC (c : Char) : Bool :=
  (65 ≤ c.toNat && c.toNat ≤ 90) || (97 ≤ c.toNat && c.toNat ≤ 122)
    || isDigitC c || c == '_'

/-- Consume the literal `pat` from the front of `cs`, returning the rest. -/
def matchLit : List Char → List Char → Option (List Char)
  | [], cs => some cs
  | _, [] => none
  | p :: ps, c :: cs => if p == c then matchLit ps cs else none

/-- Substring test over character lists: Python `needle in hay`. -/
def hasSubL (needle : List Char) : List Char → Bool
  | [] => (matchLit needle []).isSome
  | c :: rest => (matchLit needle (c :: rest)).isSome || hasSubL needle rest

/-- Python `sub in s` on strings. -/
def containsSub (s sub : String) : Bool := hasSubL sub.data s.data

/-- Index of the first occurrence of `needle` in `hay`: Python `hay.find(needle)`
    (with `none` in place of -1). -/
def findIdxSub (needle : List Char) : List Char → Option Nat
  | [] => if (matchLit needle []).isSome then some 0 else none
  | c :: rest =>
    if (matchLit needle (c :: rest)).isSome then some 0
    else (findIdxSub needle rest).map (· + 1)

/-- Strip ASCII whitespace from both ends: Python `str.strip()`. -/
def pyStripL (cs : List Char) : List Char :=
  ((cs.dropWhile isPyWs).reverse.dropWhile isPyWs).reverse

/-- Python `str.strip()` at the string level. -/
def pyStrip (s : String) : String := ⟨pyStripL s.data⟩

/-- Replace every (non-overlapping, left-to-right) occurrence of `old` by
    `new`: Python `s.replace(old, new)` for non-empty `old`.  The `fuel`
    argument bounds the recursion; callers pass the input length. -/
def replaceAllL (fuel : Nat) (old new : List Char) (cs : List Char) : List Char :=
  match fuel, cs with
  | 0, cs => cs
  | _, [] => []
  | fuel + 1, c :: rest =>
    match matchLit old (c :: rest) with
    | some after =>
      if old.isEmpty then c :: replaceAllL fuel old new rest
      else new ++ replaceAllL fuel old new after
    | none => c :: replaceAllL fuel old new rest

/-- Python `s.replace(old, new)`. -/
def pyReplace (s old new : String) : String :=
  ⟨replaceAllL s.data.length old.data new.data s.data⟩

/-- The text before the first occurrence of `sep` (the whole string when
    absent): Python `s.split(sep)[0]`. -/
def beforeFirst (s sep : String) : String :=
  match findIdxSub sep.data s.data with
  | some i => ⟨s.data.take i⟩
  | none => s

/-- The text before the first newline: Python `s.split('\n')[0]`. -/
def firstLine (s : String) : String := ⟨s.data.takeWhile (· != '\n')⟩

/-- ASCII lowercasing, the model of Python `str.lower()` (the configured
    keywords are all ASCII). -/
def pyLower (s : String) : String := ⟨s.data.map Char.toLower⟩

/-! ### JSON values -/

/-- An exact JSON number: `mant` times ten to the `exp10`.  Python would read
    these as `int` or `float`; the analysed code only ever inspects the type
    of a numeric value, never its magnitude, so exactness is a safe model. -/
structure JNum where
  mant : Int
  exp10 : Int
deriving DecidableEq, Repr

/-- A parsed JSON value.  Object entries are kept in Python `dict` order:
    insertion order, with a duplicate key keeping its first position. -/
inductive Json where
  | null
  | bool (truth : Bool)
  | num (value : JNum)
  | str (text : String)
  | arr (items : List Json)
  | obj (entries : List (String × Json))
deriving Repr

/-- Record type: a Python dict from column names to JSON scalars, in
    insertion order. -/
abbrev JRec := List (String × Json)

/-- Python `d[k]` / `k in d` on an insertion-ordered dict. -/
def lookupField : JRec → String → Option Json
  | [], _ => none
  | (k, v) :: rest, key => if k == key then some v else lookupField rest key

/-- Python `d[k] = v`: overwrite in place when the key exists (keeping its
    position), append otherwise. -/
def insertField : JRec → String → Json → JRec
  | [], key, v => [(key, v)]
  | (k, w) :: rest, key, v =>
    if k == key then (k, v) :: rest else (k, w) :: insertField rest key v

/-- Field access on a JSON value that may not be an object. -/
def Json.getField (j : Json) (key : String) : Option Json :=
  match j with
  | .obj o => lookupField o key
  | _ => none

/-- Python `needle in xs` for a list `xs` of JSON values and a string
    `needle`: string equality against the string elements (a Python `str`
    compares unequal to numbers, dicts and lists). -/
def jsonStrElem (elems : List Json) (needle : String) : Bool :=
  elems.any fun e => match e with | .str s => s == needle | _ => false

/-- Python truthiness of a JSON value. -/
def pyTruthy : Json → Bool
  | .null => false
  | .bool b => b
  | .num n => n.mant != 0
  | .str s => !s.data.isEmpty
  | .arr l => !l.isEmpty
  | .obj o => !o.isEmpty

/-- Python `len(v)`: defined for strings, lists and dicts, a `TypeError`
    (`none`) otherwise. -/
def pyLen : Json → Option Nat
  | .str s => some s.data.length
  | .arr l => some l.length
  | .obj o => some o.length
  | _ => none

/-- Python `v[0]`: first element of a list, first character of a string;
    anything else raises (`none`; dict subscripting raises `KeyError`
    because JSON object keys are strings, never the integer 0). -/
def pyIndexZero : Json → Option Json
  | .arr (x :: _) => some x
  | .str s =>
    match s.data with
    | c :: _ => some (.str ⟨[c]⟩)
    | [] => none
  | _ => none

/-- `isinstance(v, (int, float))`: JSON numbers, and booleans, which are
    ints in Python. -/
def isNumericPy : Json → Bool
  | .num _ => true
  | .bool _ => true
  | _ => false

/-! ### The model of `json.loads` -/

/-- Skip JSON whitespace. -/
def skipWsL : List Char → List Char
  | c :: cs => if isPyWs c then skipWsL cs else c :: cs
  | [] => []

/-- Accumulate a run of decimal digits, returning value, digit count, rest. -/
def grabDigits (acc : Nat) (cnt : Nat) : List Char → Nat × Nat × List Char
  | c :: cs =>
    if isDigitC c then grabDigits (acc * 10 + (c.toNat - 48)) (cnt + 1) cs
    else (acc, cnt, c :: cs)
  | [] => (acc, cnt, [])

/-- Hexadecimal digit value. -/
def hexDigit (c : Char) : Option Nat :=
  if isDigitC c then some (c.toNat - 48)
  else if 97 ≤ c.toNat && c.toNat ≤ 102 then some (c.toNat - 87)
  else if 65 ≤ c.toNat && c.toNat ≤ 70 then some (c.toNat - 55)
  else none

/-- Value of a `\uXXXX` escape. -/
def hexQuad (a b c d : Char) : Option Nat := do
  let va ← hexDigit a
  let vb ← hexDigit b
  let vc ← hexDigit c
  let vd ← hexDigit d
  return ((va * 16 + vb) * 16 + vc) * 16 + vd

/-- The one-character escape table accepted by `json.loads`. -/
def escapeTable : List (Char × Char) :=
  [('"', '"'), ('\\', '\\'), ('/', '/'), ('b', '\x08'),
   ('f', '\x0c'), ('n', '\n'), ('r', '\r'), ('t', '\t')]

/-- One-character escapes accepted by `json.loads`. -/
def escChar (c : Char) : Option Char :=
  (escapeTable.find? fun p => p.1 == c).map (·.2)

/-- Turn a decoded `\uXXXX` (or surrogate pair) code into a character.  A
    lone surrogate, which Python would keep as an unpaired code unit that a
    Lean `Char` cannot hold, is mapped to U+FFFD. -/
def codeToChar (n : Nat) : Char :=
  if 0xd800 ≤ n && n ≤ 0xdfff then '�' else Char.ofNat n

/-- String body after the opening quote, per `json.loads` in strict mode:
    raw control characters below 0x20 are rejected, escapes are decoded,
    surrogate pairs in `\u` escapes are combined.  `fuel` only bounds the
    recursion; any fuel of at least the input length behaves identically. -/
def parseJStr (fuel : Nat) (acc : List Char) (input : List Char) : Option (String × List Char) :=
  match fuel with
  | 0 => none
  | fuel + 1 =>
    match input with
    | '"' :: rest => some (⟨acc.reverse⟩, rest)
    | '\\' :: 'u' :: a :: b :: c :: d :: rest =>
      match hexQuad a b c d with
      | some n =>
        if 0xd800 ≤ n && n ≤ 0xdbff then
          match rest with
          | '\\' :: 'u' :: a2 :: b2 :: c2 :: d2 :: rest2 =>
            match hexQuad a2 b2 c2 d2 with
            | some n2 =>
              if 0xdc00 ≤ n2 && n2 ≤ 0xdfff then
                parseJStr fuel (Char.ofNat (0x10000 + (n - 0xd800) * 0x400 + (n2 - 0xdc00)) :: acc) rest2
              else parseJStr fuel (codeToChar n2 :: codeToChar n :: acc) rest2
            | none => none
          | _ => parseJStr fuel (codeToChar n :: acc) rest
        else parseJStr fuel (codeToChar n :: acc) rest
      | none => none
    | '\\' :: e :: rest =>
      match escChar e with
      | some ch => parseJStr fuel (ch :: acc) rest
      | none => none
    | c :: rest => if c.toNat < 32 then none else parseJStr fuel (c :: acc) rest
    | [] => none

/-- Optional fraction and exponent after the integer part of a JSON
    number, with the integer digits already accumulated in `iv`.  A
    trailing `.` or `e` that is not followed by a digit is left unconsumed,
    exactly as the decoder's number regex leaves it. -/
def numAfterInt (iv : Nat) (cs : List Char) : JNum × List Char :=
  let (mant1, fracLen, cs2) :=
    match cs with
    | '.' :: r =>
      match grabDigits iv 0 r with
      | (_, 0, _) => (iv, 0, cs)
      | (v, n, r2) => (v, n, r2)
    | _ => (iv, 0, cs)
  let (expVal, cs3) : Int × List Char :=
    match cs2 with
    | 'e' :: r | 'E' :: r =>
      let (esign, r1) : Int × List Char :=
        match r with
        | '+' :: r2 => (1, r2)
        | '-' :: r2 => (-1, r2)
        | _ => (1, r)
      match grabDigits 0 0 r1 with
      | (_, 0, _) => (0, cs2)
      | (ev, _, r2) => (esign * ev, r2)
    | _ => (0, cs2)
  (⟨(mant1 : Int), expVal - (fracLen : Int)⟩, cs3)

/-- Unsigned JSON number: `(0|[1-9][0-9]*)(\.[0-9]+)?([eE][+-]?[0-9]+)?`,
    with no leading zeros. -/
def parseJNumMag (cs : List Char) : Option (JNum × List Char) :=
  match cs with
  | '0' :: r => some (numAfterInt 0 r)
  | c :: r =>
    if isDigitC c && (c != '0') then
      match grabDigits (c.toNat - 48) 1 r with
      | (iv, _, r2) => some (numAfterInt iv r2)
    else none
  | [] => none

/-- JSON number per the RFC grammar used by `json.loads`: an optional
    minus sign followed by the unsigned grammar. -/
def parseJNum (cs : List Char) : Option (JNum × List Char) :=
  match cs with
  | '-' :: r => (parseJNumMag r).map fun p => (⟨-p.1.mant, p.1.exp10⟩, p.2)
  | _ => parseJNumMag cs

mutual
/-- One JSON value.  `fuel` only bounds the recursion; any fuel of at least
    the input length behaves identically. -/
def parseJVal (fuel : Nat) (cs : List Char) : Option (Json × List Char) :=
  match fuel with
  | 0 => none
  | fuel + 1 =>
    match cs with
    | '\x7b' :: r =>
      match skipWsL r with
      | '\x7d' :: r2 => some (.obj [], r2)
      | r2 => parseJObj fuel r2 []
    | '[' :: r =>
      match skipWsL r with
      | ']' :: r2 => some (.arr [], r2)
      | r2 => parseJArr fuel r2 []
    | '"' :: r => (parseJStr (r.length + 1) [] r).map fun (s, rest) => (.str s, rest)
    | 't' :: 'r' :: 'u' :: 'e' :: r => some (.bool true, r)
    | 'f' :: 'a' :: 'l' :: 's' :: 'e' :: r => some (.bool false, r)
    | 'n' :: 'u' :: 'l' :: 'l' :: r => some (.null, r)
    | _ => (parseJNum cs).map fun (n, rest) => (.num n, rest)

/-- Members of an object, positioned at a key (not at `}`). -/
def parseJObj (fuel : Nat) (cs : List Char) (acc : JRec) : Option (Json × List Char) :=
  match fuel with
  | 0 => none
  | fuel + 1 =>
    match cs with
    | '"' :: r =>
      match parseJStr (r.length + 1) [] r with
      | some (key, r2) =>
        match skipWsL r2 with
        | ':' :: r3 =>
          match parseJVal fuel (skipWsL r3) with
          | some (v, r4) =>
            match skipWsL r4 with
            | ',' :: r5 => parseJObj fuel (skipWsL r5) (insertField acc key v)
            | '\x7d' :: r5 => some (.obj (insertField acc key v), r5)
            | _ => none
          | none => none
        | _ => none
      | none => none
    | _ => none

/-- Elements of an array, positioned at a value (not at `]`). -/
def parseJArr (fuel : Nat) (cs : List Char) (acc : List Json) : Option (Json × List Char) :=
  match fuel with
  | 0 => none
  | fuel + 1 =>
    match parseJVal fuel cs with
    | some (v, r) =>
      match skipWsL r with
      | ',' :: r2 => parseJArr fuel (skipWsL r2) (acc ++ [v])
      | ']' :: r2 => some (.arr (acc ++ [v]), r2)
      | _ => none
    | none => none
end

/-- `json.loads` over a character list: exactly one value, with only
    whitespace around it. -/
def jsonParseL (cs : List Char) : Option Json :=
  match parseJVal (cs.length + 1) (skipWsL cs) with
  | some (v, rest) => if (skipWsL rest).isEmpty then some v else none
  | none => none

/-- `json.loads` on a string. -/
def jsonParse (s : String) : Option Json := jsonParseL s.data

/-! ### robust_json_parser.py: error detection and message cleanup -/

/-- `RobustJSONParser._is_error_response`: its `error_indicators` list. -/
def errorIndicators : List String :=
  ["\x22error\x22:", "TABLE_OR_VIEW_NOT_FOUND", "SQLSTATE",
   "error", "ERROR", "Exception", "Failed", "cannot be found"]

/-- `RobustJSONParser._is_error_response`: any indicator occurring as a
    substring of the response text. -/
def isErrorResponse (t : String) : Bool :=
  errorIndicators.any fun ind => containsSub t ind

/-- Fixed message for a TCS table-not-found error. -/
def msgTCS : String :=
  "TCS stock data not found in database. Please check if the data exists for the requested time period."

/-- Fixed message for a generic table-not-found error. -/
def msgTableNotFound : String :=
  "Requested stock data table not found in database."

/-- Fixed message for a source-cannot-be-found error. -/
def msgCannotBeFound : String :=
  "The requested data source cannot be found. Please verify the stock symbol and date range."

/-- Fixed message when the cleaned text is empty. -/
def msgEmptyCleaned : String :=
  "An error occurred while processing the request."

/-- Fixed message produced by the blanket exception handler of
    `_extract_error_message`. -/
def msgParserFailure : String :=
  "Failed to parse error response"

/-- The tail of `RobustJSONParser._clean_error_message` after the
    TABLE_OR_VIEW_NOT_FOUND and SQLSTATE branches have declined. -/
def cleanErrorTail (s : String) : String :=
  if containsSub s "cannot be found" then msgCannotBeFound
  else if containsSub s "Failed to" || containsSub s "Error:" then firstLine s
  else
    let c := pyStrip s
    let c2 : String := if c.data.length > 200 then ⟨c.data.take 200 ++ "...".data⟩ else c
    if c2.data.isEmpty then msgEmptyCleaned else c2

/-- `RobustJSONParser._clean_error_message` on a string argument. -/
def cleanErrorMessage (s : String) : String :=
  if containsSub s "TABLE_OR_VIEW_NOT_FOUND" then
    if containsSub s "TCS_stock" then msgTCS else msgTableNotFound
  else if containsSub s "SQLSTATE" then
    let mainError := pyStrip (pyReplace (pyStrip (beforeFirst s "SQLSTATE")) "[TABLE_OR_VIEW_NOT_FOUND]" "")
    if mainError.data.isEmpty then cleanErrorTail s else mainError
  else cleanErrorTail s

/-- `_clean_error_message` on an arbitrary JSON value, as Python executes it:
    `in` on a dict tests keys and on a list tests elements, while `.split`
    and `.strip` raise on non-strings (`none`), which the caller's blanket
    handler converts to the fixed parser-failure message. -/
def cleanErrorVal : Json → Option String
  | .str s => some (cleanErrorMessage s)
  | .obj o =>
    let keys := o.map (·.1)
    if keys.contains "TABLE_OR_VIEW_NOT_FOUND" then
      some (if keys.contains "TCS_stock" then msgTCS else msgTableNotFound)
    else if keys.contains "SQLSTATE" then none
    else if keys.contains "cannot be found" then some msgCannotBeFound
    else none
  | .arr es =>
    if jsonStrElem es "TABLE_OR_VIEW_NOT_FOUND" then
      some (if jsonStrElem es "TCS_stock" then msgTCS else msgTableNotFound)
    else if jsonStrElem es "SQLSTATE" then none
    else if jsonStrElem es "cannot be found" then some msgCannotBeFound
    else none
  | _ => none

/-- The error dictionaries built by `_extract_error_message`. -/
def mkErrorObj (msg errType : String) : Json :=
  .obj [("status", .str "error"), ("error", .str msg),
        ("error_type", .str errType), ("chart_data", .null)]

/-- `RobustJSONParser._extract_error_message` when the text parsed as a
    dict: take the error member when present, clean it (`database` type),
    falling back to the blanket handler (`parser` type) when cleaning
    raises, or to whole-text cleanup (`general` type) without the member. -/
def extractErrorFromObj (t : String) (o : JRec) : Json :=
  match lookupField o "error" with
  | some ev =>
    match cleanErrorVal ev with
    | some m => mkErrorObj m "database"
    | none => mkErrorObj msgParserFailure "parser"
  | none => mkErrorObj (cleanErrorMessage t) "general"

/-- `RobustJSONParser._extract_error_message`. -/
def extractErrorMessage (t : String) : Json :=
  match (pyStrip t).data with
  | '\x7b' :: _ =>
    match jsonParse t with
    | some (.obj o) => extractErrorFromObj t o
    | _ => mkErrorObj (cleanErrorMessage t) "general"
  | _ => mkErrorObj (cleanErrorMessage t) "general"

/-! ### robust_json_parser.py: regex searches over the response text

Each of the parser's regular expressions is a fixed pattern of literals,
`\s*` gaps and one simple character class, so its Python matching behaviour
(leftmost match, greedy classes) is reproduced directly by the scanners
below. -/

/-- Tail of the patterns `"<key>"\s*:\s*...`: consume `"key"`, optional
    whitespace, `:`, optional whitespace. -/
def matchKeyColon (key : List Char) (cs : List Char) : Option (List Char) :=
  match matchLit ('"' :: key ++ ['"']) cs with
  | some r1 =>
    match (r1.dropWhile isPyWs) with
    | ':' :: r2 => some (r2.dropWhile isPyWs)
    | _ => none
  | none => none

/-- Leftmost match of `"status"\s*:\s*"success"`
    (pattern `status_success`). -/
def statusSuccessSearch : List Char → Bool
  | [] => false
  | c :: rest =>
    (match matchKeyColon "status".data (c :: rest) with
      | some r => (matchLit "\x22success\x22".data r).isSome
      | none => false)
    || statusSuccessSearch rest

/-- Leftmost match of `"<key>"\s*:\s*"([^"]+)"`, returning the capture:
    the greedy `[^"]+` takes everything up to the next quote. -/
def quotedValueSearch (key : List Char) : List Char → Option String
  | [] => none
  | c :: rest =>
    match matchKeyColon key (c :: rest) with
    | some r =>
      (match r with
        | '"' :: r2 =>
          let cap := r2.takeWhile (· != '"')
          if cap.isEmpty then quotedValueSearch key rest
          else match matchLit ['"'] (r2.drop cap.length) with
            | some _ => some ⟨cap⟩
            | none => quotedValueSearch key rest
        | _ => quotedValueSearch key rest)
    | none => quotedValueSearch key rest

/-- Leftmost match of `"data"\s*:\s*\[` (pattern `data_array_start`),
    returning the text after the bracket (`match.end()`). -/
def dataArraySearch : List Char → Option (List Char)
  | [] => none
  | c :: rest =>
    match matchKeyColon "data".data (c :: rest) with
    | some ('[' :: r2) => some r2
    | _ => dataArraySearch rest

/-- Match of the balanced-brace record pattern
    `\{[^{}]*(?:\{[^{}]*\}[^{}]*)*\}` at the current position: an opening
    brace, then runs of non-brace characters interleaved with complete
    one-level inner brace pairs, then the closing brace.  Returns the match
    and the rest.  `fuel` only bounds the recursion (the input length
    suffices). -/
def matchRecordPat (fuel : Nat) (cs : List Char) : Option (List Char × List Char) :=
  match cs with
  | '\x7b' :: r =>
    (matchBody fuel r).map fun (body, rest) => ('\x7b' :: body, rest)
  | _ => none
where
  matchBody (fuel : Nat) (cs : List Char) : Option (List Char × List Char) :=
    match fuel with
    | 0 => none
    | fuel + 1 =>
      let run := cs.takeWhile fun c => c != '\x7b' && c != '\x7d'
      match cs.drop run.length with
      | '\x7d' :: rest => some (run ++ ['\x7d'], rest)
      | '\x7b' :: r2 =>
        let run2 := r2.takeWhile fun c => c != '\x7b' && c != '\x7d'
        match r2.drop run2.length with
        | '\x7d' :: r3 =>
          (matchBody fuel r3).map fun (body, rest) =>
            (run ++ '\x7b' :: run2 ++ '\x7d' :: body, rest)
        | _ => none
      | _ => none

/-- `re.finditer`/`re.findall` with the record pattern: scan left to right,
    emitting each match and resuming after it. -/
def findRecordMatches (fuel : Nat) (cs : List Char) : List (List Char) :=
  match fuel, cs with
  | 0, _ => []
  | _, [] => []
  | fuel + 1, c :: rest =>
    if c == '\x7b' then
      match matchRecordPat (rest.length + 1) (c :: rest) with
      | some (m, after) => m :: findRecordMatches fuel after
      | none => findRecordMatches fuel rest
    else findRecordMatches fuel rest

/-- `re.findall` with the pattern `"(\w+)"\s*:\s*(\d+(?:\.\d+)?)`
    (pattern `numeric_field`): all non-overlapping matches, left to right,
    each as captured name and numeric value (`float` of the captured text,
    kept exact). -/
def numericFieldMatches (fuel : Nat) (cs : List Char) : List (String × JNum) :=
  match fuel, cs with
  | 0, _ => []
  | _, [] => []
  | fuel + 1, c :: rest =>
    match tryHere (c :: rest) with
    | some (name, value, after) => (name, value) :: numericFieldMatches fuel after
    | none => numericFieldMatches fuel rest
where
  tryHere (cs : List Char) : Option (String × JNum × List Char) :=
    match cs with
    | '"' :: r1 =>
      let name := r1.takeWhile isWordC
      if name.isEmpty then none
      else match r1.drop name.length with
        | '"' :: r2 =>
          match (r2.dropWhile isPyWs) with
          | ':' :: r3 =>
            let r4 := r3.dropWhile isPyWs
            let ds := r4.takeWhile isDigitC
            if ds.isEmpty then none
            else
              let iv : Nat := ds.foldl (fun a c => a * 10 + (c.toNat - 48)) 0
              match r4.drop ds.length with
              | '.' :: r5 =>
                let fs := r5.takeWhile isDigitC
                if fs.isEmpty then some (⟨name⟩, ⟨(iv : Int), 0⟩, r4.drop ds.length)
                else
                  let fv : Nat := fs.foldl (fun a c => a * 10 + (c.toNat - 48)) iv
                  some (⟨name⟩, ⟨(fv : Int), -(fs.length : Int)⟩, r5.drop fs.length)
              | r5 => some (⟨name⟩, ⟨(iv : Int), 0⟩, r5)
          | _ => none
        | _ => none
    | _ => none

/-! ### robust_json_parser.py: record extraction and column detection -/

/-- `RobustJSONParser._get_required_fields`. -/
def requiredFields (chartType : String) : List String :=
  if chartType == "candlestick" then ["Date", "Open", "High", "Low", "Close"]
  else if chartType == "scatter" then ["Date"]
  else if chartType == "line" then ["Date"]
  else if chartType == "bar" then []
  else if chartType == "pie" then []
  else ["Date"]

/-- `RobustJSONParser._validate_record` on a dict record. -/
def validateRecord (rec : JRec) (chartType : String) : Bool :=
  (requiredFields chartType).all fun f => (lookupField rec f).isSome

/-- `RobustJSONParser._extract_fields_manually`: the `"Date"` regex capture
    first, then every numeric-field capture except `Date`, in match order
    with Python dict assignment; at least two fields required. -/
def manualExtract (frag : List Char) : Option JRec :=
  let withDate : JRec :=
    match quotedValueSearch "Date".data frag with
    | some d => [("Date", .str d)]
    | none => []
  let rec0 := (numericFieldMatches frag.length frag).foldl
    (fun acc nv =>
      if nv.1 == "Date" then acc else insertField acc nv.1 (.num nv.2))
    withDate
  if rec0.length > 1 then some rec0 else none

/-- One record candidate of `_extract_data_records`: keep a fragment that
    parses as a JSON dict and validates, or else survives manual extraction
    and validates. -/
def recordKeep (chartType : String) (frag : List Char) : Option JRec :=
  match jsonParseL frag with
  | some (.obj o) => if validateRecord o chartType then some o else none
  | some _ => none
  | none =>
    match manualExtract frag with
    | some r => if validateRecord r chartType then some r else none
    | none => none

/-- The record-shaped fragments after the `"data"\s*:\s*\[` marker. -/
def recordFragments (t : String) : List (List Char) :=
  match dataArraySearch t.data with
  | some rest => findRecordMatches rest.length rest
  | none => []

/-- `RobustJSONParser._extract_data_records`. -/
def extractDataRecords (t : String) (chartType : String) : List JRec :=
  (recordFragments t).filterMap (recordKeep chartType)

/-- `RobustJSONParser.supported_chart_types`. -/
def supportedChartTypes : List String :=
  ["candlestick", "scatter", "line", "bar", "pie"]

/-- The x-axis candidate names of `_detect_x_column`. -/
def xCandidates : List String :=
  ["Date", "date", "time", "Time", "timestamp", "Timestamp"]

/-- `RobustJSONParser._detect_x_column`.  `none` models an uncaught
    exception inside the helper (the `in` loop raising a `TypeError` on a
    scalar sample, or `.keys()` on a non-dict), which the caller's blanket
    handler turns into an overall no-result.  The fallback
    `list(sample_record.keys())[0] if sample_record else "Date"` yields the
    first key of a non-empty dict and `"Date"` for any falsy sample. -/
def detectXColumn (data : Json) : Option String :=
  if !pyTruthy data then some "Date"
  else
    match pyIndexZero data with
    | none => none
    | some sample =>
      match sample with
      | .obj f =>
        match xCandidates.find? fun cand => (lookupField f cand).isSome with
        | some cand => some cand
        | none =>
          match f with
          | (k, _) :: _ => some k
          | [] => some "Date"
      | .str s =>
        match xCandidates.find? fun cand => containsSub s cand with
        | some cand => some cand
        | none => if s.data.isEmpty then some "Date" else none
      | .arr es =>
        match xCandidates.find? fun cand => jsonStrElem es cand with
        | some cand => some cand
        | none => if es.isEmpty then some "Date" else none
      | _ => none

/-- `RobustJSONParser._detect_y_columns`.  The chart type arrives as a raw
    JSON value because `_enhance_chart_data` passes
    `enhanced_data.get('chart_type', 'line')` through unchecked; a non-string
    compares unequal to every supported name. -/
def detectYColumns (data : Json) (chartType : Json) : Option (List String) :=
  if !pyTruthy data then some []
  else
    match pyIndexZero data with
    | some (.obj f) =>
      let numericFields := (f.filter fun kv =>
        isNumericPy kv.2 && kv.1 != "Date" && kv.1 != "date").map (·.1)
      match chartType with
      | .str ct =>
        if ct == "candlestick" then some ["Open", "High", "Low", "Close"]
        else if ct == "scatter" then some (numericFields.take 2)
        else if ct == "line" || ct == "bar" then some (numericFields.take 1)
        else some numericFields
      | _ => some numericFields
    | _ => none

/-- `RobustJSONParser._detect_chart_type_from_data`. -/
def detectChartTypeFromData (data : Json) : Option String :=
  if !pyTruthy data then some "line"
  else
    match data with
    | .arr (.obj f :: _) =>
      let columns := f.map (·.1)
      if ["Open", "High", "Low", "Close"].all columns.contains then some "candlestick"
      else
        let numericCols := columns.filter fun c =>
          isNumericPy ((lookupField f c).getD .null)
        if numericCols.length ≥ 2 then some "scatter" else some "line"
    | _ => none

/-! ### robust_json_parser.py: truncation repair -/

/-- Character class `[\w":\s,]` of the `after_data` pattern. -/
def afterDataClassC (c : Char) : Bool :=
  isWordC c || c == '"' || c == ':' || c == ',' || isPyWs c

/-- Attempt the tail of `\]\s*,\s*("[\w":\s,]+)\s*\}?\s*$` just after a
    `]`, returning the capture.  The greedy class run absorbs any trailing
    whitespace (whitespace is in the class), so after the run only an
    optional closing brace and whitespace may remain before the end. -/
def afterDataTryHere (cs : List Char) : Option (List Char) :=
  match cs.dropWhile isPyWs with
  | ',' :: r2 =>
    match r2.dropWhile isPyWs with
    | '"' :: r3 =>
      let run := r3.takeWhile afterDataClassC
      if run.isEmpty then none
      else
        let tail := r3.drop run.length
        let tail2 := match tail with
          | '\x7d' :: t => t
          | t => t
        if (tail2.dropWhile isPyWs).isEmpty then some ('"' :: run) else none
    | _ => none
  | _ => none

/-- Leftmost match of the `after_data` pattern
    `\]\s*,\s*("[\w":\s,]+)\s*\}?\s*$`, returning its capture. -/
def afterDataSearch : List Char → Option (List Char)
  | [] => none
  | c :: rest =>
    if c == ']' then
      match afterDataTryHere rest with
      | some cap => some cap
      | none => afterDataSearch rest
    else afterDataSearch rest

/-- `', '.join(...)`. -/
def joinCommaSpace : List (List Char) → List Char
  | [] => []
  | [x] => x
  | x :: rest => x ++ ',' :: ' ' :: joinCommaSpace rest

/-- `RobustJSONParser._clean_truncated_response`: locate the literal
    `"data": [`, keep only the record fragments that parse as JSON on their
    own, and reassemble; return the stripped text unchanged when the marker
    is absent or no fragment survives. -/
def cleanTruncatedResponse (t : String) : String :=
  let cleaned := pyStripL t.data
  match findIdxSub "\x22data\x22: [".data cleaned with
  | none => ⟨cleaned⟩
  | some i =>
    let recordsSection := cleaned.drop i
    let completeRecords := (findRecordMatches recordsSection.length recordsSection).filter
      fun r => (jsonParseL r).isSome
    if completeRecords.isEmpty then ⟨cleaned⟩
    else
      let beforeData := cleaned.take i
      let afterData : List Char :=
        match afterDataSearch cleaned with
        | some cap => ',' :: ' ' :: cap
        | none => []
      ⟨beforeData ++ "\x22data\x22: [".data ++ joinCommaSpace completeRecords
        ++ ']' :: afterData ++ ['\x7d']⟩

/-! ### robust_json_parser.py: the parse pipeline -/

/-- The direct-parse attempt of `parse_response` (its step after error
    detection and cleaning): parse the cleaned text when it starts with a
    brace and hand the dict over when it reports success; any other outcome
    falls through to pattern extraction. -/
def directParsed (t : String) : Option JRec :=
  let cleaned := cleanTruncatedResponse t
  match (pyStrip cleaned).data with
  | '\x7b' :: _ =>
    match jsonParse cleaned with
    | some (.obj o) =>
      match lookupField o "status" with
      | some (.str s) => if s == "success" then some o else none
      | _ => none
    | _ => none
  | _ => none

/-- The `parser_info` metadata attached by `_enhance_chart_data`. -/
def parserInfoJson : Json :=
  .obj [("method", .str "robust_parser_v2"), ("version", .str "2.0"),
        ("features", .arr [.str "truncation_handling", .str "auto_detection",
                           .str "data_cleaning"])]

/-- `_enhance_chart_data`, chart-type step: detect the chart type from the
    data when the key is missing and a `data` key exists. -/
def enhanceChartType (e : JRec) : Option JRec :=
  if (lookupField e "chart_type").isNone then
    match lookupField e "data" with
    | some d => (detectChartTypeFromData d).map fun ct => insertField e "chart_type" (.str ct)
    | none => some e
  else some e

/-- `_enhance_chart_data`, axis step: fill in missing `x`/`y` when a truthy
    `data` value is present. -/
def enhanceXY (e : JRec) : Option JRec :=
  match lookupField e "data" with
  | some d =>
    if pyTruthy d then
      match (if (lookupField e "x").isNone
             then (detectXColumn d).map fun x => insertField e "x" (.str x)
             else some e) with
      | none => none
      | some e2 =>
        if (lookupField e2 "y").isNone then
          (detectYColumns d ((lookupField e2 "chart_type").getD (.str "line"))).map
            fun ys => insertField e2 "y" (.arr (ys.map .str))
        else some e2
    else some e
  | none => some e

/-- `_enhance_chart_data`, bookkeeping step: record count and completeness
    flag when a `data` key exists. -/
def enhanceCount (e : JRec) : Option JRec :=
  match lookupField e "data" with
  | some d =>
    (pyLen d).map fun n =>
      insertField (insertField e "data_count" (.num ⟨(n : Int), 0⟩)) "data_complete" (.bool true)
  | none => some e

/-- `RobustJSONParser._enhance_chart_data` on a parsed success dict.
    `none` models an exception escaping to the blanket handler of
    `parse_response`, which then returns no result. -/
def enhance (o : JRec) : Option Json :=
  let e1 := if (lookupField o "status").isSome then o
            else insertField o "status" (.str "success")
  match enhanceChartType e1 with
  | none => none
  | some e2 =>
    match enhanceXY e2 with
    | none => none
    | some e3 =>
      match enhanceCount e3 with
      | none => none
      | some e4 => some (.obj (insertField e4 "parser_info" parserInfoJson))

/-- `_extract_chart_metadata` against an explicit supported-type list (the
    `supported_chart_types` attribute of the parser object). -/
def extractChartMetadataWith (supported : List String) (t : String) : Option String :=
  if statusSuccessSearch t.data then
    match quotedValueSearch "chart_type".data t.data with
    | some ct => if supported.contains ct then some ct else none
    | none => none
  else none

/-- The pattern-extraction fallback of `parse_response` (its final step):
    recover the chart type, extract records, and build the result dict with
    auto-detected axes. -/
def patternParseWith (supported : List String) (t : String) : Option Json :=
  match extractChartMetadataWith supported t with
  | none => none
  | some ct =>
    if (extractDataRecords t ct).isEmpty then none
    else
      match detectXColumn (.arr ((extractDataRecords t ct).map .obj)) with
      | none => none
      | some x =>
        match detectYColumns (.arr ((extractDataRecords t ct).map .obj)) (.str ct) with
        | none => none
        | some ys =>
          some (.obj [("status", .str "success"), ("chart_type", .str ct),
                      ("data", .arr ((extractDataRecords t ct).map .obj)),
                      ("x", .str x), ("y", .arr (ys.map .str))])

/-- The pattern-extraction fallback with the parser's configured list. -/
def patternParse (t : String) : Option Json :=
  patternParseWith supportedChartTypes t

/-- `RobustJSONParser.parse_response` against an explicit supported-type
    list: error detection first, then the direct parse of the cleaned text,
    then pattern extraction. -/
def parseResponseWith (supported : List String) (t : String) : Option Json :=
  if isErrorResponse t then some (extractErrorMessage t)
  else
    match directParsed t with
    | some o => enhance o
    | none => patternParseWith supported t

/-- `RobustJSONParser.parse_response` for a freshly constructed parser. -/
def parseResponse (t : String) : Option Json :=
  parseResponseWith supportedChartTypes t

/-- The state a `RobustJSONParser` instance carries between calls: only the
    configuration written once by `__init__` (the regex table is a constant
    realised by the dedicated scanners above and omitted here). -/
structure RobustJSONParserState where
  supported_chart_types : List String

/-- A freshly constructed `RobustJSONParser`. -/
def initParserState : RobustJSONParserState := ⟨supportedChartTypes⟩

/-- `parse_response` as a state transformer: the method reads
    `self.supported_chart_types` and writes no attribute, so the state
    passes through unchanged. -/
def parseResponseSt (p : RobustJSONParserState) (t : String) :
    Option Json × RobustJSONParserState :=
  (parseResponseWith p.supported_chart_types t, p)

/-! ### api_client.py / config.py: query classification -/

/-- `QUERY_KEYWORDS["dashboard"]` from config.py. -/
def dashboardKeywords : List String :=
  ["dashboard", "live dashboard", "create dashboard", "build dashboard",
   "dashboard with", "interactive dashboard", "real-time dashboard"]

/-- `QUERY_KEYWORDS["chart"]` from config.py. -/
def chartKeywords : List String :=
  ["chart", "plot", "graph", "visualize", "visualization", "bar chart",
   "line chart", "pie chart", "scatter plot", "histogram", "heatmap",
   "candlestick", "stacked bar", "create chart", "show chart",
   "generate chart", "plot data", "visualize data"]

/-- `QUERY_KEYWORDS["table"]` from config.py. -/
def tableKeywords : List String :=
  ["table", "raw data", "show data", "view data", "display data",
   "data table", "show table", "preview data", "sample data", "first rows",
   "head", "limit", "select", "query", "sql", "dataframe", "dataset"]

/-- `BlueverseAPIClient._classify_query`: lowercase the query, scan the
    three keyword lists in order, return on the first list with a match. -/
def classifyQuery (q : String) : String :=
  match dashboardKeywords.find? fun k => containsSub (pyLower q) k with
  | some _ => "dashboard"
  | none =>
    match chartKeywords.find? fun k => containsSub (pyLower q) k with
    | some _ => "json_generator"
    | none =>
      match tableKeywords.find? fun k => containsSub (pyLower q) k with
      | some _ => "json_generator"
      | none => "main"

/-- The three intents of the specification. -/
inductive Intent where
  | dashboard
  | chartTable
  | general
deriving DecidableEq, Repr

/-- The intent each routing string stands for: the dashboard flow, the
    json-generator flow serving both chart and table requests, and the main
    flow for everything else. -/
def routeIntent (route : String) : Intent :=
  if route == "dashboard" then .dashboard
  else if route == "json_generator" then .chartTable
  else .general

/-- The reference classification, written from the specification text:
    case-insensitive substring search against three ordered keyword lists
    (dashboard first, then chart, then table); the first list with any
    matching keyword wins, chart and table both map to the chart-table
    intent, and no match yields the general intent. -/
def specClassify (q : String) : Intent :=
  if dashboardKeywords.any fun k => containsSub (pyLower q) k then .dashboard
  else if chartKeywords.any fun k => containsSub (pyLower q) k then .chartTable
  else if tableKeywords.any fun k => containsSub (pyLower q) k then .chartTable
  else .general

/-! ### chart_utils.py: column resolution -/

/-- The data/x/y extraction prelude of `ChartGenerator._process_chart_data`:
    a dict with a truthy `data` value wins; otherwise a string `response`
    field is parsed and its `data`/`x`/`y` taken.  Every other shape ends in
    `return None` (directly, or through an exception reaching the blanket
    handler), so the two no-result outcomes are collapsed into `none`. -/
def chartDataExtract (chartData : Json) : Option (Json × Json × Json) :=
  match chartData with
  | .obj o =>
    match lookupField o "data" with
    | some d =>
      if pyTruthy d then
        some (d, (lookupField o "x").getD (.str ""), (lookupField o "y").getD (.str ""))
      else chartRespExtract o
    | none => chartRespExtract o
  | _ => none
where
  chartRespExtract (o : JRec) : Option (Json × Json × Json) :=
    match lookupField o "response" with
    | some (.str s) =>
      match jsonParse s with
      | some (.obj p) =>
        match lookupField p "data" with
        | some d =>
          some (d, (lookupField p "x").getD (.str ""), (lookupField p "y").getD (.str ""))
        | none => none
      | _ => none
    | _ => none

/-- The `candlestick_cols` list of `_process_chart_data`. -/
def ohlcColumns : List String := ["Open", "High", "Low", "Close"]

/-- `columns = list(data[0].keys()) if data[0] and isinstance(data[0], dict)
    else []` of `_process_chart_data`. -/
def firstColumns (first : Json) : List String :=
  match first with
  | .obj f => if f.isEmpty then [] else f.map (·.1)
  | _ => []

/-- The candlestick special case of `_process_chart_data`: a declared y
    list of at least four entries requires all four OHLC names among the
    columns (else fail) and forces y to `Close`; any other declared y
    passes through. -/
def candlestickYCand (columns : List String) (y0 : Json) : Option Json :=
  match y0 with
  | .arr ys =>
    if ys.length ≥ 4 then
      if ohlcColumns.all fun col => columns.contains col then some (.str "Close")
      else none
    else some y0
  | _ => some y0

/-- `if not x_col and columns: x_col = columns[0]`. -/
def resolveX (columns : List String) (x0 : Json) : Json :=
  if !pyTruthy x0 then
    match columns with
    | c :: _ => Json.str c
    | [] => x0
  else x0

/-- `y_col = columns[1]` when at least two columns exist, else
    `columns[0]`, whenever the declared y is falsy. -/
def resolveY (columns : List String) (y1 : Json) : Json :=
  if !pyTruthy y1 then
    match columns with
    | _ :: c2 :: _ => Json.str c2
    | [c1] => Json.str c1
    | [] => y1
  else y1

/-- `"columns": list(data[0].keys()) if data and isinstance(data[0], dict)
    else []` of the result dict. -/
def resultColumns (first : Json) : List String :=
  match first with
  | .obj f => f.map (·.1)
  | _ => []

/-- `ChartGenerator._process_chart_data` after the extraction prelude:
    reject non-list or empty data, read the column names off the first
    record, take the candlestick branch when the declared y is a list of at
    least four entries, then fall back to positional column defaults and
    reject falsy axes. -/
def processChartData (chartData : Json) : Option Json :=
  match chartDataExtract chartData with
  | none => none
  | some (d, x0, y0) =>
    if !pyTruthy d then none
    else
      match d with
      | .arr [] => none
      | .arr (first :: _) =>
        match candlestickYCand (firstColumns first) y0 with
        | none => none
        | some y1 =>
          if !pyTruthy (resolveX (firstColumns first) x0)
              || !pyTruthy (resolveY (firstColumns first) y1) then none
          else
            some (.obj [("data", d),
                        ("x_col", resolveX (firstColumns first) x0),
                        ("y_col", resolveY (firstColumns first) y1),
                        ("columns", .arr ((resultColumns first).map .str))])
      | _ => none

/-! ### Derived accessors and concrete payloads for the claim instances -/

/-- Field access through an optional result. -/
def respField (r : Option Json) (key : String) : Option Json :=
  r.bind fun j => j.getField key

/-- The error-field condition of the error-precedence claim, phrased over
    the parse of the full text: when the text parses as a JSON object with
    an `error` member, that member is a string containing the
    TABLE_OR_VIEW_NOT_FOUND marker. -/
def errorValOk (t : String) : Bool :=
  match jsonParse t with
  | some (.obj o) =>
    match lookupField o "error" with
    | some ev =>
      (match ev with
        | .str v => containsSub v "TABLE_OR_VIEW_NOT_FOUND"
        | _ => false)
    | none => true
  | _ => true

/-- The truncated scatter payload of the truncation-tolerance claim,
    exactly as the specification prints it (cut mid-stream, closing
    brackets missing). -/
def c1Input : String :=
  "\x7b\"status\":\"success\",\"chart_type\":\"scatter\",\"data\":[\x7b\"Open\":551.0,\"Close\":545.45,\"Date\":\"2016-05-31\"\x7d,\x7b\"Open\":547.2,\"Close\":550.15,\"Date\":\"2016-05-30\"\x7d,\x7b\"Open\":543.15,\"Close\":545.4,\"Date\":\"2016-05-27\"\x7d"

/-- First recovered record of the truncated scatter payload. -/
def c1Rec1 : JRec :=
  [("Open", .num ⟨5510, -1⟩), ("Close", .num ⟨54545, -2⟩), ("Date", .str "2016-05-31")]

/-- Second recovered record of the truncated scatter payload. -/
def c1Rec2 : JRec :=
  [("Open", .num ⟨5472, -1⟩), ("Close", .num ⟨55015, -2⟩), ("Date", .str "2016-05-30")]

/-- Third recovered record of the truncated scatter payload. -/
def c1Rec3 : JRec :=
  [("Open", .num ⟨54315, -2⟩), ("Close", .num ⟨5454, -1⟩), ("Date", .str "2016-05-27")]

/-- A database-error payload that also carries a `data` array. -/
def c2WitnessInput : String :=
  "\x7b\"error\": \"[TABLE_OR_VIEW_NOT_FOUND] The table master.sales is missing. SQLSTATE: 42P01\", \"data\": [\x7b\"a\": 1\x7d]\x7d"

/-- A well-formed success payload with an empty data array. -/
def c3CexInput : String := "\x7b\"status\": \"success\", \"data\": []\x7d"

/-- A truncated line-chart payload recovered by pattern extraction. -/
def c3WitnessInput : String :=
  "\x7b\"status\":\"success\",\"chart_type\":\"line\",\"data\":[\x7b\"Date\":\"2020-01-01\",\"Close\":100.5\x7d"

/-- The result the pattern-extraction fallback produces for
    `c3WitnessInput`. -/
def c3WitnessRes : Json := (patternParse c3WitnessInput).getD .null

/-- A chart-data dict with the given records and declared axes, shaped as
    the parser hands it to `_process_chart_data`. -/
def mkChartInput (recs : List JRec) (x : Json) (ys : List Json) : Json :=
  .obj [("data", .arr (recs.map .obj)), ("x", x), ("y", .arr ys)]

/-- A record carrying all four OHLC columns. -/
def c4RecFull : JRec :=
  [("Date", .str "2024-01-02"), ("Open", .num ⟨1, 0⟩), ("High", .num ⟨2, 0⟩),
   ("Low", .num ⟨1, 0⟩), ("Close", .num ⟨2, 0⟩)]

/-- A record missing the `Low` column. -/
def c4RecNoLow : JRec :=
  [("Date", .str "2024-01-03"), ("Open", .num ⟨1, 0⟩), ("High", .num ⟨2, 0⟩),
   ("Close", .num ⟨2, 0⟩)]

/-- A declared y list of four entries, requesting a candlestick chart. -/
def c4YList : List Json := [.str "Open", .str "High", .str "Low", .str "Close"]

/-- Candlestick input whose second record lacks `Low` while the first is
    complete. -/
def c4CexInput : Json := mkChartInput [c4RecFull, c4RecNoLow] (.str "") c4YList

/-- A well-formed success payload declaring the unsupported chart type
    `heatmap`. -/
def c5CexInput : String :=
  "\x7b\"status\": \"success\", \"chart_type\": \"heatmap\", \"data\":[\x7b\"a\": 1\x7d]\x7d"

/-- A truncated bar-chart payload recovered by pattern extraction. -/
def c5WitnessInput : String :=
  "\x7b\"status\":\"success\",\"chart_type\":\"bar\",\"data\":[\x7b\"p\": 1\x7d"

/-- The result the pattern-extraction fallback produces for
    `c5WitnessInput`. -/
def c5WitnessRes : Json := (patternParse c5WitnessInput).getD .null

/-- A payload that is valid JSON overall although every balanced-brace
    fragment of its data section is unparseable on its own (the braces are
    hidden inside a string value). -/
def c6CexInput : String :=
  "\x7b\"status\": \"success\", \"data\": [\x7b\"a\": \"\x7d\x7b\"\x7d]\x7d"

/-- A payload whose single data fragment is syntactically broken. -/
def c6WitnessInput : String :=
  "\x7b\"status\":\"success\",\"chart_type\":\"pie\",\"data\":[\x7b\"slice\": \x7d]"

/-- A long plain error text whose content before SQLSTATE exceeds the
    truncation bound. -/
def c8CexInput : String := String.mk (List.replicate 250 'a') ++ " SQLSTATE 42P01"

/-- The uncapped message the SQLSTATE branch returns for `c8CexInput`. -/
def c8CexMessage : String := String.mk (List.replicate 250 'a')

/-- A plain error text matching none of the special cleanup patterns. -/
def c8WitnessInput : String := "something went wrong badly in the backend"

/-- A well-formed success chart payload whose data values contain the word
    `error`. -/
def c10WitnessInput : String :=
  "\x7b\"status\": \"success\", \"chart_type\": \"bar\", \"data\": [\x7b\"label\": \"error rate\", \"v\": 3\x7d]\x7d"

/-! ### Supporting lemmas -/

theorem getField_mkErrorObj_status (m ty : String) :
    (mkErrorObj m ty).getField "status" = some (.str "error") := rfl

theorem getField_mkErrorObj_error (m ty : String) :
    (mkErrorObj m ty).getField "error" = some (.str m) := rfl

theorem getField_mkErrorObj_chartData (m ty : String) :
    (mkErrorObj m ty).getField "chart_data" = some .null := rfl

/-- Every branch of `extractErrorMessage` builds one of the four-field
    error dicts. -/
theorem extractError_shape (t : String) :
    ∃ m ty, extractErrorMessage t = mkErrorObj m ty := by
  unfold extractErrorMessage extractErrorFromObj
  repeat' split
  all_goals exact ⟨_, _, rfl⟩

/-- A text containing the TABLE_OR_VIEW_NOT_FOUND marker is cleaned to one
    of the two fixed table-not-found messages. -/
theorem cleanMarker (s : String) (h : containsSub s "TABLE_OR_VIEW_NOT_FOUND" = true) :
    cleanErrorMessage s = msgTCS ∨ cleanErrorMessage s = msgTableNotFound := by
  unfold cleanErrorMessage
  rw [h]
  cases h2 : containsSub s "TCS_stock" with
  | true => exact Or.inl rfl
  | false => exact Or.inr rfl

/-- When the text contains the marker and, in case it parses as an object
    with an error member, that member is a marker-carrying string, the
    extracted error dict carries one of the two fixed messages. -/
theorem extractError_marker (t : String)
    (hM : containsSub t "TABLE_OR_VIEW_NOT_FOUND" = true)
    (hV : errorValOk t = true) :
    ∃ m ty, extractErrorMessage t = mkErrorObj m ty ∧
      (m = msgTCS ∨ m = msgTableNotFound) := by
  unfold extractErrorMessage
  split
  · split
    · rename_i o heq
      cases hl : lookupField o "error" with
      | none =>
        exact ⟨cleanErrorMessage t, "general",
          by unfold extractErrorFromObj; rw [hl], cleanMarker t hM⟩
      | some ev =>
        cases ev with
        | str v =>
          have hV' : containsSub v "TABLE_OR_VIEW_NOT_FOUND" = true := by
            simpa [errorValOk, heq, hl] using hV
          exact ⟨cleanErrorMessage v, "database",
            by unfold extractErrorFromObj; rw [hl]; rfl, cleanMarker v hV'⟩
        | null => simp [errorValOk, heq, hl] at hV
        | bool b => simp [errorValOk, heq, hl] at hV
        | num n => simp [errorValOk, heq, hl] at hV
        | arr es => simp [errorValOk, heq, hl] at hV
        | obj o2 => simp [errorValOk, heq, hl] at hV
    · exact ⟨_, _, rfl, cleanMarker t hM⟩
  · exact ⟨_, _, rfl, cleanMarker t hM⟩

/-! ### Claim theorems -/

/-- C1: on the specific truncated scatter payload (cut mid-stream, closing
    brackets missing), `parse_response` returns a success ChartSpec with
    chart type `scatter`, exactly the three complete records, `x = Date`,
    and `y` the two numeric columns `Open` and `Close`. -/
theorem c1_truncation_tolerance :
    respField (parseResponse c1Input) "status" = some (.str "success") ∧
    respField (parseResponse c1Input) "chart_type" = some (.str "scatter") ∧
    respField (parseResponse c1Input) "data"
      = some (.arr [.obj c1Rec1, .obj c1Rec2, .obj c1Rec3]) ∧
    respField (parseResponse c1Input) "x" = some (.str "Date") ∧
    respField (parseResponse c1Input) "y" = some (.arr [.str "Open", .str "Close"]) :=
  ⟨rfl, rfl, rfl, rfl, rfl⟩

/-- C9: `parse_response` is deterministic and carries no state across
    calls: invoking it twice in sequence on the same text, threading the
    parser object through, yields the same result, and the parser object is
    unchanged. -/
theorem c9_idempotent_stateless (p : RobustJSONParserState) (t : String) :
    (parseResponseSt p t).1 = (parseResponseSt (parseResponseSt p t).2 t).1 ∧
    (parseResponseSt p t).2 = p :=
  ⟨rfl, rfl⟩

/-- C10: any input containing one of the fixed error-indicator substrings
    anywhere (purely substring-based, no structural check) makes
    `parse_response` return a status-error result with `chart_data = None`,
    never a chart spec. -/
theorem c10_substring_error_detection (t : String) (h : isErrorResponse t = true) :
    parseResponse t = some (extractErrorMessage t) ∧
    respField (parseResponse t) "status" = some (.str "error") ∧
    respField (parseResponse t) "chart_data" = some .null := by
  have hp : parseResponse t = some (extractErrorMessage t) := by
    simp [parseResponse, parseResponseWith, h]
  obtain ⟨m, ty, hm⟩ := extractError_shape t
  refine ⟨hp, ?_, ?_⟩
  · rw [hp, hm]
    simp [respField, getField_mkErrorObj_status]
  · rw [hp, hm]
    simp [respField, getField_mkErrorObj_chartData]

/-- C10 witness: a well-formed success chart payload whose data merely
    mentions the word `error` is still turned into an error result. -/
theorem c10_substring_error_detection_witness :
    respField (parseResponse c10WitnessInput) "status" = some (.str "error") ∧
    respField (parseResponse c10WitnessInput) "chart_data" = some .null :=
  (c10_substring_error_detection c10WitnessInput rfl).2

/-- C2: any text carrying an error field whose value contains the
    TABLE_OR_VIEW_NOT_FOUND marker and a SQLSTATE code is answered with a
    status-error result whose message does not contain `SQLSTATE`, even
    when the text also contains a data array: error detection precedes all
    chart parsing. -/
theorem c2_error_precedence (t : String)
    (hM : containsSub t "TABLE_OR_VIEW_NOT_FOUND" = true)
    (hS : containsSub t "SQLSTATE" = true)
    (hV : errorValOk t = true) :
    ∃ m, respField (parseResponse t) "status" = some (.str "error") ∧
      respField (parseResponse t) "error" = some (.str m) ∧
      containsSub m "SQLSTATE" = false := by
  have hErr : isErrorResponse t = true := by
    unfold isErrorResponse errorIndicators
    simp [hS]
  have hp : parseResponse t = some (extractErrorMessage t) := by
    simp [parseResponse, parseResponseWith, hErr]
  obtain ⟨m, ty, hm, hmsg⟩ := extractError_marker t hM hV
  refine ⟨m, ?_, ?_, ?_⟩
  · rw [hp, hm]
    simp [respField, getField_mkErrorObj_status]
  · rw [hp, hm]
    simp [respField, getField_mkErrorObj_error]
  · rcases hmsg with h | h <;> subst h <;> decide

/-- C2 witness: the concrete table-not-found payload with an attached data
    array yields an error message free of SQLSTATE. -/
theorem c2_error_precedence_witness :
    ∃ m, respField (parseResponse c2WitnessInput) "status" = some (.str "error") ∧
      respField (parseResponse c2WitnessInput) "error" = some (.str m) ∧
      containsSub m "SQLSTATE" = false :=
  c2_error_precedence c2WitnessInput rfl rfl rfl

theorem findSome_eq_any (p : String → Bool) : ∀ l : List String, (l.find? p).isSome = l.any p
  | [] => rfl
  | a :: l => by
    rw [List.find?_cons]
    cases h : p a
    · simp [h, findSome_eq_any p l]
    · simp [h]

/-- A chart type recovered by `_extract_chart_metadata` passed its
    supported-type check. -/
theorem metadata_supported {supported : List String} {t : String} {ct : String}
    (h : extractChartMetadataWith supported t = some ct) :
    supported.contains ct = true := by
  unfold extractChartMetadataWith at h
  split at h
  · split at h
    · split at h
      · rename_i hc
        injection h with h'
        subst h'
        exact hc
      · exact Option.noConfusion h
    · exact Option.noConfusion h
  · exact Option.noConfusion h

/-- Every record kept by `_extract_data_records` passed
    `_validate_record` for its chart type. -/
theorem recordKeep_valid {ct : String} {frag : List Char} {rec : JRec}
    (h : recordKeep ct frag = some rec) : validateRecord rec ct = true := by
  unfold recordKeep at h
  split at h
  · split at h
    · rename_i hv
      injection h with h'
      subst h'
      exact hv
    · exact Option.noConfusion h
  · exact Option.noConfusion h
  · split at h
    · split at h
      · rename_i hv
        injection h with h'
        subst h'
        exact hv
      · exact Option.noConfusion h
    · exact Option.noConfusion h

/-- Membership form of `recordKeep_valid`. -/
theorem mem_extract_valid {t : String} {ct : String} {rec : JRec}
    (h : rec ∈ extractDataRecords t ct) : validateRecord rec ct = true := by
  unfold extractDataRecords at h
  rw [List.mem_filterMap] at h
  obtain ⟨frag, _, hk⟩ := h
  exact recordKeep_valid hk

/-- A validated record answers every required-field lookup. -/
theorem validate_lookup {rec : JRec} {ct : String} {f : String}
    (hv : validateRecord rec ct = true) (hf : f ∈ requiredFields ct) :
    (lookupField rec f).isSome = true := by
  unfold validateRecord at hv
  rw [List.all_eq_true] at hv
  exact hv f hf

/-- A key listed among a record's column names answers its lookup. -/
theorem lookup_isSome_of_contains {rec : JRec} {k : String}
    (h : (rec.map (·.1)).contains k = true) :
    (lookupField rec k).isSome = true := by
  induction rec with
  | nil => exact absurd h (by simp)
  | cons kv rest ih =>
    obtain ⟨k', v⟩ := kv
    rw [List.map_cons, List.contains_cons] at h
    unfold lookupField
    cases hk : k' == k with
    | true => simp [hk]
    | false =>
      have hk' : (k == k') = false := by
        cases hkk : k == k' with
        | false => rfl
        | true =>
          rw [beq_iff_eq] at hkk
          rw [hkk, beq_self_eq_true] at hk
          exact Bool.noConfusion hk
      rw [hk', Bool.false_or] at h
      simp [hk, ih h]

/-- `_detect_x_column` answers `Date` whenever the first record has a
    `Date` column. -/
theorem detectX_date (rec0 : JRec) (tl : List Json)
    (hD : (lookupField rec0 "Date").isSome = true) :
    detectXColumn (.arr (.obj rec0 :: tl)) = some "Date" := by
  unfold detectXColumn
  simp only [pyTruthy, List.isEmpty_cons, Bool.not_false, Bool.not_true, if_false,
    pyIndexZero, xCandidates]
  rw [List.find?_cons]
  simp [hD]

/-- `_detect_y_columns` answers the four OHLC names for a candlestick
    request over dict records. -/
theorem detectY_candle (rec0 : JRec) (tl : List Json) :
    detectYColumns (.arr (.obj rec0 :: tl)) (.str "candlestick")
      = some ["Open", "High", "Low", "Close"] := rfl

/-- C7: query classification equals the reference ordered-keyword
    algorithm of the specification (dashboard list first, then chart, then
    table, first match wins, default general); in particular any query
    matching a dashboard keyword routes to the dashboard flow even when it
    also matches chart keywords. -/
theorem c7_classification (q : String) :
    routeIntent (classifyQuery q) = specClassify q ∧
    ((dashboardKeywords.any fun k => containsSub (pyLower q) k) = true →
      classifyQuery q = "dashboard") := by
  constructor
  · unfold classifyQuery specClassify
    cases hd : dashboardKeywords.find? fun k => containsSub (pyLower q) k with
    | some k =>
      have ha : (dashboardKeywords.any fun k => containsSub (pyLower q) k) = true := by
        rw [← findSome_eq_any, hd]; rfl
      rw [ha]
      rfl
    | none =>
      have ha : (dashboardKeywords.any fun k => containsSub (pyLower q) k) = false := by
        rw [← findSome_eq_any, hd]; rfl
      rw [ha]
      cases hc : chartKeywords.find? fun k => containsSub (pyLower q) k with
      | some k =>
        have hca : (chartKeywords.any fun k => containsSub (pyLower q) k) = true := by
          rw [← findSome_eq_any, hc]; rfl
        rw [hca]
        rfl
      | none =>
        have hca : (chartKeywords.any fun k => containsSub (pyLower q) k) = false := by
          rw [← findSome_eq_any, hc]; rfl
        rw [hca]
        cases ht : tableKeywords.find? fun k => containsSub (pyLower q) k with
        | some k =>
          have hta : (tableKeywords.any fun k => containsSub (pyLower q) k) = true := by
            rw [← findSome_eq_any, ht]; rfl
          rw [hta]
          rfl
        | none =>
          have hta : (tableKeywords.any fun k => containsSub (pyLower q) k) = false := by
            rw [← findSome_eq_any, ht]; rfl
          rw [hta]
          rfl
  · intro h
    have hs : (dashboardKeywords.find? fun k => containsSub (pyLower q) k).isSome = true := by
      rw [findSome_eq_any]
      exact h
    obtain ⟨k, hk⟩ := Option.isSome_iff_exists.mp hs
    unfold classifyQuery
    rw [hk]

/-- C7 witness: a query naming both a dashboard and a chart routes to the
    dashboard flow. -/
theorem c7_classification_witness :
    classifyQuery "Create a dashboard with a bar chart" = "dashboard" :=
  (c7_classification "Create a dashboard with a bar chart").2 rfl

/-- C3 counterexample: a well-formed success payload with an empty data
    array is passed through as a success result with empty data, so a
    success status does not guarantee non-empty data. -/
theorem c3_counterexample :
    respField (parseResponse c3CexInput) "status" = some (.str "success") ∧
    respField (parseResponse c3CexInput) "data" = some (.arr []) :=
  ⟨rfl, rfl⟩

/-- C3 (amended): every success result built by the pattern-extraction
    fallback has a non-empty data list whose records each contain all
    columns required by the chart type; the x column is `Date` whenever the
    chart type requires a date, and for candlestick the y columns are the
    four OHLC names, present in every record.  (The direct-parse path
    passes the input's fields through unvalidated, as the counterexample
    shows.) -/
theorem c3_pattern_success_invariant (t : String) (r : Json)
    (h : patternParse t = some r) :
    r.getField "status" = some (.str "success") ∧
    ∃ ct recs, r.getField "chart_type" = some (.str ct) ∧
      r.getField "data" = some (.arr (recs.map .obj)) ∧
      recs ≠ [] ∧
      (∀ rec ∈ recs, ∀ f ∈ requiredFields ct, (lookupField rec f).isSome = true) ∧
      ("Date" ∈ requiredFields ct → r.getField "x" = some (.str "Date")) ∧
      (ct = "candlestick" →
        r.getField "y" = some (.arr [.str "Open", .str "High", .str "Low", .str "Close"])) := by
  unfold patternParse patternParseWith at h
  split at h
  · exact Option.noConfusion h
  · rename_i ct hm
    split at h
    · exact Option.noConfusion h
    · rename_i hne
      split at h
      · exact Option.noConfusion h
      · rename_i x hx
        split at h
        · exact Option.noConfusion h
        · rename_i ys hy
          injection h with h'
          subst h'
          have hnil : extractDataRecords t ct ≠ [] := by
            intro hn
            rw [hn] at hne
            exact hne rfl
          refine ⟨rfl, ct, extractDataRecords t ct, rfl, rfl, hnil, ?_, ?_, ?_⟩
          · intro rec hrec f hf
            exact validate_lookup (mem_extract_valid hrec) hf
          · intro hDate
            cases hrecs : extractDataRecords t ct with
            | nil => exact absurd hrecs hnil
            | cons rec0 rest =>
              have hv : validateRecord rec0 ct = true :=
                mem_extract_valid (by rw [hrecs]; exact List.mem_cons_self rec0 rest)
              have hD : (lookupField rec0 "Date").isSome = true :=
                validate_lookup hv hDate
              rw [hrecs, List.map_cons] at hx
              rw [detectX_date rec0 (rest.map .obj) hD] at hx
              injection hx with hx'
              subst hx'
              rfl
          · intro hct
            subst hct
            cases hrecs : extractDataRecords t "candlestick" with
            | nil => exact absurd hrecs hnil
            | cons rec0 rest =>
              rw [hrecs, List.map_cons] at hy
              rw [detectY_candle rec0 (rest.map .obj)] at hy
              injection hy with hy'
              subst hy'
              rfl

/-- C3 witness: the pattern-extraction result for a truncated line payload
    carries the success status (and, by the theorem, validated non-empty
    data). -/
theorem c3_pattern_success_invariant_witness :
    c3WitnessRes.getField "status" = some (.str "success") :=
  (c3_pattern_success_invariant c3WitnessInput c3WitnessRes rfl).1

/-- C5 counterexample: a well-formed success payload declaring the
    unsupported chart type `heatmap` is returned as a success ChartSpec
    carrying that type instead of the no-result sentinel. -/
theorem c5_counterexample :
    respField (parseResponse c5CexInput) "status" = some (.str "success") ∧
    respField (parseResponse c5CexInput) "chart_type" = some (.str "heatmap") ∧
    supportedChartTypes.contains "heatmap" = false :=
  ⟨rfl, rfl, rfl⟩

/-- C5 (amended): the unsupported-chart-type rejection holds on the
    pattern-extraction fallback: every ChartSpec it produces carries one of
    the five supported types.  (The direct-parse path returns the declared
    chart type unvalidated, as the counterexample shows.) -/
theorem c5_supported_types (t : String) (r : Json)
    (h : patternParse t = some r) :
    ∃ ct, r.getField "chart_type" = some (.str ct) ∧
      supportedChartTypes.contains ct = true := by
  unfold patternParse patternParseWith at h
  split at h
  · exact Option.noConfusion h
  · rename_i ct hm
    split at h
    · exact Option.noConfusion h
    · split at h
      · exact Option.noConfusion h
      · rename_i x hx
        split at h
        · exact Option.noConfusion h
        · rename_i ys hy
          injection h with h'
          subst h'
          exact ⟨ct, rfl, metadata_supported hm⟩

/-- C5 witness: the pattern-extraction result for a truncated bar payload
    carries a supported chart type. -/
theorem c5_supported_types_witness :
    ∃ ct, c5WitnessRes.getField "chart_type" = some (.str ct) ∧
      supportedChartTypes.contains ct = true :=
  c5_supported_types c5WitnessInput c5WitnessRes rfl

/-- C6 (amended): when the text is not error-shaped, the direct parse of
    the cleaned text does not succeed, and every record fragment after the
    data-array marker fails both the JSON parse and manual field
    extraction, `parse_response` returns the no-result sentinel.  (When the
    whole text happens to parse directly as a success object despite its
    fragments being individually unparseable, the direct path returns it,
    as the counterexample shows.) -/
theorem c6_zero_record_abort (t : String)
    (hErr : isErrorResponse t = false)
    (hDir : directParsed t = none)
    (hFrag : ∀ frag ∈ recordFragments t,
      (jsonParseL frag).isNone = true ∧ (manualExtract frag).isNone = true) :
    parseResponse t = none := by
  have hrec : ∀ ct, extractDataRecords t ct = [] := by
    intro ct
    unfold extractDataRecords
    rw [List.filterMap_eq_nil_iff]
    intro frag hf
    obtain ⟨h1, h2⟩ := hFrag frag hf
    rw [Option.isNone_iff_eq_none] at h1 h2
    unfold recordKeep
    rw [h1, h2]
  unfold parseResponse parseResponseWith
  rw [hErr, hDir]
  simp only [Bool.false_eq_true, if_false]
  unfold patternParseWith
  split
  · rfl
  · rename_i ct hm
    rw [hrec ct]
    rfl

/-- C6 counterexample: a payload that is not error-shaped and whose data
    fragments are all individually unparseable (braces hidden inside a
    string value) is still returned as a success ChartSpec by the direct
    parse, not as the no-result sentinel. -/
theorem c6_counterexample :
    isErrorResponse c6CexInput = false ∧
    (∀ frag ∈ recordFragments c6CexInput,
      (jsonParseL frag).isNone = true ∧ (manualExtract frag).isNone = true) ∧
    respField (parseResponse c6CexInput) "status" = some (.str "success") :=
  ⟨rfl, by decide, rfl⟩

/-- C6 witness: a truncated payload with one broken fragment yields the
    no-result sentinel. -/
theorem c6_zero_record_abort_witness : parseResponse c6WitnessInput = none :=
  c6_zero_record_abort c6WitnessInput rfl rfl (by decide)

/-- C4 (amended): for a non-empty record list and a declared y list of at
    least four entries, `_process_chart_data` treats the request as
    candlestick: any result it returns carries `y_col = Close`, and it
    fails (returns the no-result sentinel) whenever one of the four OHLC
    column names is missing from the FIRST record's key set.  (Only the
    first record is checked: the counterexample has a later record without
    `Low` yet still resolves.) -/
theorem candlestickYCand_arr (columns : List String) (ys : List Json) :
    candlestickYCand columns (.arr ys)
      = if ys.length ≥ 4 then
          (if (ohlcColumns.all fun col => columns.contains col) then some (.str "Close")
           else none)
        else some (.arr ys) := rfl

theorem firstColumns_obj (f : JRec) :
    firstColumns (.obj f) = if f.isEmpty then [] else f.map (·.1) := rfl

theorem c4_candlestick_first_record (r0 : JRec) (rest : List JRec) (x0 : Json)
    (ys : List Json) (h4 : 4 ≤ ys.length) :
    (∀ res, processChartData (mkChartInput (r0 :: rest) x0 ys) = some res →
      res.getField "y_col" = some (.str "Close")) ∧
    ((∃ c ∈ ohlcColumns, lookupField r0 c = none) →
      processChartData (mkChartInput (r0 :: rest) x0 ys) = none) := by
  have hred : processChartData (mkChartInput (r0 :: rest) x0 ys)
      = match candlestickYCand (firstColumns (.obj r0)) (.arr ys) with
        | none => none
        | some y1 =>
          if !pyTruthy (resolveX (firstColumns (.obj r0)) x0)
              || !pyTruthy (resolveY (firstColumns (.obj r0)) y1) then none
          else
            some (.obj [("data", .arr ((r0 :: rest).map .obj)),
                        ("x_col", resolveX (firstColumns (.obj r0)) x0),
                        ("y_col", resolveY (firstColumns (.obj r0)) y1),
                        ("columns", .arr ((resultColumns (.obj r0)).map .str))]) := rfl
  constructor
  · intro res h
    rw [hred] at h
    split at h
    · exact Option.noConfusion h
    · rename_i y1 hy
      have hy1 : y1 = .str "Close" := by
        rw [candlestickYCand_arr, if_pos h4] at hy
        split at hy
        · injection hy with h'
          exact h'.symm
        · exact Option.noConfusion hy
      subst hy1
      split at h
      · exact Option.noConfusion h
      · injection h with h'
        subst h'
        rfl
  · rintro ⟨c, hc, hnone⟩
    have hcols : (firstColumns (.obj r0)).contains c = false := by
      rw [firstColumns_obj]
      cases hre : r0.isEmpty with
      | true => rfl
      | false =>
        cases hcc : (r0.map (·.1)).contains c with
        | false => exact hcc
        | true =>
          have hs := lookup_isSome_of_contains hcc
          rw [hnone] at hs
          exact Bool.noConfusion hs
    have hcand : candlestickYCand (firstColumns (.obj r0)) (.arr ys) = none := by
      rw [candlestickYCand_arr, if_pos h4]
      have hall : (ohlcColumns.all fun col => (firstColumns (.obj r0)).contains col)
          = false := by
        rw [List.all_eq_false]
        exact ⟨c, hc, by rw [hcols]; simp⟩
      rw [hall]
      rfl
    rw [hred, hcand]

/-- C4 counterexample: a candlestick request over records whose SECOND
    record lacks `Low` still resolves (to `y_col = Close`) instead of
    failing, because only the first record's key set is checked. -/
theorem c4_counterexample :
    (processChartData c4CexInput).isSome = true ∧
    lookupField c4RecNoLow "Low" = none ∧
    respField (processChartData c4CexInput) "y_col" = some (.str "Close") :=
  ⟨rfl, rfl, rfl⟩

/-- C4 witness: a candlestick request whose first record lacks `Low` fails
    column resolution. -/
theorem c4_candlestick_first_record_witness :
    processChartData (mkChartInput [c4RecNoLow] (.str "") c4YList) = none :=
  (c4_candlestick_first_record c4RecNoLow [] (.str "") c4YList (by decide)).2
    ⟨"Low", by decide, rfl⟩

/-- C8 (amended): the default cleanup branch of `_clean_error_message` —
    taken when none of the TABLE_OR_VIEW_NOT_FOUND, SQLSTATE,
    `cannot be found`, `Failed to` or `Error:` patterns occurs — returns at
    most 203 characters (200 plus the appended ellipsis).  (The
    SQLSTATE-prefix and first-line branches return unbounded extracts, as
    the counterexample shows.) -/
theorem c8_default_truncation (s : String)
    (h1 : containsSub s "TABLE_OR_VIEW_NOT_FOUND" = false)
    (h2 : containsSub s "SQLSTATE" = false)
    (h3 : containsSub s "cannot be found" = false)
    (h4 : containsSub s "Failed to" = false)
    (h5 : containsSub s "Error:" = false) :
    (cleanErrorMessage s).data.length ≤ 203 := by
  unfold cleanErrorMessage cleanErrorTail
  simp only [h1, h2, h3, h4, h5, Bool.or_self, Bool.false_eq_true, if_false]
  by_cases hlen : 200 < (pyStrip s).data.length
  · rw [if_pos hlen]
    have hne : (((pyStrip s).data.take 200 ++ "...".data : List Char).isEmpty) = false := by
      simp [List.isEmpty_eq_false]
    simp only [hne, Bool.false_eq_true, if_false]
    simp only [List.length_append, List.length_take, List.length_cons, List.length_nil]
    omega
  · rw [if_neg hlen]
    split
    · decide
    · omega

/-- C8 counterexample: a 250-character text followed by a SQLSTATE code is
    cleaned by the SQLSTATE-prefix branch into a 250-character message,
    exceeding the claimed 203-character bound. -/
theorem c8_counterexample :
    respField (parseResponse c8CexInput) "error" = some (.str c8CexMessage) ∧
    c8CexMessage.data.length = 250 ∧ ¬ (250 ≤ 203) :=
  ⟨rfl, rfl, by decide⟩

/-- C8 witness: a plain message hitting the default branch stays within
    the bound. -/
theorem c8_default_truncation_witness :
    (cleanErrorMessage c8WitnessInput).data.length ≤ 203 :=
  c8_default_truncation c8WitnessInput rfl rfl rfl rfl rfl

end Genieverse
